import Mathlib

/-!
Verification of the feature-driven template composition engine of
`create-tanstack-boilerplate` (src/index.js): a shallow embedding of the
scaffolder's pure decision logic — the feature catalog, the package-manifest
composer (`generatePackageJson`), the per-feature file emissions, and the
top-level run (`init`) — together with theorems settling the specification's
claims about it.

Modelling conventions:
  * JavaScript objects used as string-keyed records (`pkg.dependencies`,
    `pkg.scripts`, …) are modelled as insertion-ordered association lists
    (`Dict`): assigning to an existing key updates it in place, assigning to a
    fresh key appends it at the end.  This mirrors both JS property-update
    semantics and the key order `JSON.stringify` serialises.
  * Filesystem side effects are collected into an ordered list of `FsEffect`
    values (directory creations and file writes), with paths relative to the
    project root directory.
  * File contents written with `JSON.stringify(obj, null, 2)` are carried as
    structured `Json` values (the object the source builds); contents written
    from template-literal strings are carried as the literal `String`.
  * A phase of the run that can throw (a JavaScript `ReferenceError` or
    `TypeError`) is modelled as a `PhaseResult`: the effects it performed
    before returning or throwing, plus the error it threw, if any.
-/

/-- A JavaScript object used as a string→string record, as an
insertion-ordered association list. -/
abbrev Dict := List (String × String)

/-- JavaScript property read `m[k]`: the value bound to the first (and, for
the objects built here, only) occurrence of key `k`. -/
def jsGet : Dict → String → Option String
  | [], _ => none
  | (k', v) :: rest, k => if k' == k then some v else jsGet rest k

/-- JavaScript property assignment `m[k] = v`: updates an existing key in
place (keeping its position), appends a fresh key at the end. -/
def jsSet : Dict → String → String → Dict
  | [], k, v => [(k, v)]
  | (k', v') :: rest, k, v =>
      if k' == k then (k, v) :: rest else (k', v') :: jsSet rest k v

/-- One entry of the FEATURES catalog of src/index.js (lines 14–84). -/
structure FeatureConfig where
  name : String
  description : String
  packages : List String
  devPackages : List String
deriving Repr, DecidableEq

/-- The static feature catalog FEATURES of src/index.js (lines 14–84), as a
lookup by key; unknown keys yield `none` (JavaScript `undefined`). -/
def FEATURES : String → Option FeatureConfig
  | "i18n" => some
      { name := "Internationalization (i18n)"
        description := "Multi-language support with Inlang/Paraglide"
        packages := ["@inlang/cli", "@inlang/paraglide-js"]
        devPackages := [] }
  | "ui" => some
      { name := "UI Components"
        description := "Radix UI + Tailwind CSS + shadcn/ui"
        packages :=
          ["@radix-ui/react-accordion", "@radix-ui/react-avatar",
           "@radix-ui/react-checkbox", "@radix-ui/react-dialog",
           "@radix-ui/react-dropdown-menu", "@radix-ui/react-label",
           "@radix-ui/react-popover", "@radix-ui/react-slot",
           "@radix-ui/react-tooltip", "class-variance-authority", "clsx",
           "tailwind-merge", "lucide-react"]
        devPackages := ["@tailwindcss/vite", "tailwindcss", "autoprefixer"] }
  | "state" => some
      { name := "State Management"
        description := "Choose Jotai or Zustand for state management"
        packages := []
        devPackages := [] }
  | "auth" => some
      { name := "Authentication"
        description := "Google OAuth integration"
        packages := ["cookie-es"]
        devPackages := ["@types/google.accounts"] }
  | "animation" => some
      { name := "Animations"
        description := "Framer Motion for smooth animations"
        packages := ["framer-motion"]
        devPackages := [] }
  | "testing" => some
      { name := "Testing Setup"
        description := "Vitest + Testing Library"
        packages := []
        devPackages :=
          ["@testing-library/jest-dom", "@testing-library/react",
           "@testing-library/user-event", "@vitest/ui", "vitest", "jsdom"] }
  | "quality" => some
      { name := "Code Quality"
        description := "Biome (linter/formatter) + Husky + lint-staged"
        packages := []
        devPackages := ["@biomejs/biome", "husky", "lint-staged"] }
  | "deploy" => some
      { name := "Cloudflare Deployment"
        description := "Deploy to Cloudflare Pages using @cloudflare/vite-plugin"
        packages := ["@cloudflare/vite-plugin"]
        devPackages := ["wrangler"] }
  | _ => none

/-- The body of the `features.forEach` loop of generatePackageJson
(src/index.js lines 326–336): merge the feature's `packages` into
`dependencies` and its `devPackages` into `devDependencies`, each pinned to
"latest"; a key absent from the catalog is silently skipped
(`if (featureConfig)`). -/
def addFeaturePackages (acc : Dict × Dict) (feature : String) : Dict × Dict :=
  match FEATURES feature with
  | some featureConfig =>
      (featureConfig.packages.foldl (fun d p => jsSet d p "latest") acc.1,
       featureConfig.devPackages.foldl (fun d p => jsSet d p "latest") acc.2)
  | none => acc

/-- The interpolation `packageManager === "pnpm" ? "pnpm " : ""` used by the
quality scripts (src/index.js lines 360–367). -/
def pnpmLead (packageManager : String) : String :=
  if packageManager == "pnpm" then "pnpm " else ""

/-- The `pnpm.overrides` version-pin block added for pnpm consumers
(src/index.js lines 371–383). -/
def pnpmOverrides : Dict :=
  [("@tanstack/react-start-server", "1.121.0"),
   ("@tanstack/start-server-core", "1.121.0"),
   ("@tanstack/start-plugin-core", "1.121.0"),
   ("@tanstack/react-start-plugin", "1.121.0"),
   ("@tanstack/router-plugin", "1.121.0"),
   ("@tanstack/router-generator", "1.121.0"),
   ("@tanstack/server-functions-plugin", "1.121.0")]

/-- The `pnpm` extra field of the manifest: an object with one `overrides`
member. -/
structure PnpmSection where
  overrides : Dict
deriving Repr, DecidableEq

/-- The composed package manifest, field for field the object literal of
generatePackageJson (src/index.js lines 294–323) plus the conditionally
attached `lint-staged` and `pnpm` members. `isPrivate` models the manifest's
`private` field (a Lean keyword). -/
structure PackageJson where
  name : String
  isPrivate : Bool
  sideEffects : Bool
  type : String
  scripts : Dict
  dependencies : Dict
  devDependencies : Dict
  lintStaged : Option (List (String × List String))
  pnpm : Option PnpmSection
deriving Repr, DecidableEq

/-- The base `scripts` of the manifest (src/index.js lines 299–303). -/
def baseScripts : Dict :=
  [("dev", "vite dev --port 3000"),
   ("build", "vite build"),
   ("start", "node .output/server/index.mjs")]

/-- The base `dependencies` of the manifest (src/index.js lines 304–311). -/
def baseDependencies : Dict :=
  [("@tanstack/react-query", "^5.83.0"),
   ("@tanstack/react-router", "1.121.0"),
   ("@tanstack/react-router-with-query", "1.121.0"),
   ("react", "^19.1.0"),
   ("react-dom", "^19.1.0"),
   ("vite", "^6.3.5")]

/-- The base `devDependencies` of the manifest (src/index.js lines 312–322). -/
def baseDevDependencies : Dict :=
  [("@tanstack/react-start", "1.121.0"),
   ("@tanstack/router-core", "1.121.0"),
   ("@tanstack/start-client-core", "1.121.0"),
   ("@types/node", "^24.0.0"),
   ("@types/react", "^19.1.7"),
   ("@types/react-dom", "^19.1.6"),
   ("vite-tsconfig-paths", "^5.1.4"),
   ("@vitejs/plugin-react", "^5.0.4"),
   ("typescript", "^5.8.3")]

/-- generatePackageJson of src/index.js (lines 293–386): the base manifest,
then each selected feature's packages merged in the order the caller listed
the features, then the state-library dependencies, the feature-gated scripts,
the quality `lint-staged` block, and the pnpm-only `overrides` block. -/
def generatePackageJson (name : String) (features : List String)
    (packageManager : String) (stateLibs : List String := ["jotai"]) :
    PackageJson :=
  let folded := features.foldl addFeaturePackages (baseDependencies, baseDevDependencies)
  let dependencies1 := folded.1
  let devDependencies1 := folded.2
  let dependencies2 :=
    if features.contains "state" then
      let d := if stateLibs.contains "jotai" then jsSet dependencies1 "jotai" "latest"
               else dependencies1
      if stateLibs.contains "zustand" then jsSet d "zustand" "latest" else d
    else dependencies1
  let scripts1 :=
    if features.contains "i18n" then
      jsSet baseScripts "machine-translate" "inlang machine translate --project project.inlang"
    else baseScripts
  let scripts2 :=
    if features.contains "testing" then
      jsSet (jsSet (jsSet scripts1 "test" "vitest run") "test:watch" "vitest") "test:ui" "vitest --ui"
    else scripts1
  let scripts3 :=
    if features.contains "quality" then
      jsSet (jsSet (jsSet scripts2 "lint" (pnpmLead packageManager ++ "biome check src"))
        "lint:fix" (pnpmLead packageManager ++ "biome check --write src")) "prepare" "husky"
    else scripts2
  let lintStaged :=
    if features.contains "quality" then
      some [("*.\x7bjs,jsx,ts,tsx\x7d", [pnpmLead packageManager ++ "biome check src"])]
    else none
  let pnpmField :=
    if packageManager == "pnpm" then some { overrides := pnpmOverrides } else none
  { name := name
    isPrivate := true
    sideEffects := false
    type := "module"
    scripts := scripts3
    dependencies := dependencies2
    devDependencies := devDependencies1
    lintStaged := lintStaged
    pnpm := pnpmField }

/-- A JSON value, as the source builds them before `JSON.stringify`. Object
member order is the JavaScript insertion order. -/
inductive Json where
  | str (s : String)
  | bool (b : Bool)
  | arr (elems : List Json)
  | obj (members : List (String × Json))

/-- The content of one emitted file: either a template-literal string or the
structured object passed to `JSON.stringify(obj, null, 2)`. -/
inductive FileContent where
  | text (s : String)
  | json (j : Json)

/-- One filesystem side effect of the run, with the path relative to the
project root directory ("." stands for the root itself). -/
inductive FsEffect where
  | mkdir (path : String)
  | write (path : String) (content : FileContent)

/-- getClientCode of src/index.js (lines 775–784). -/
def getClientCode : String :=
  "import \x7b hydrateRoot \x7d from 'react-dom/client'\n" ++
  "import \x7b StartClient \x7d from '@tanstack/react-start'\n" ++
  "import \x7b createRouter \x7d from './router'\n\n" ++
  "const router = createRouter()\n\n" ++
  "hydrateRoot(document, <StartClient router=\x7brouter\x7d />)\n"

/-- getSSRCode of src/index.js (lines 786–794). -/
def getSSRCode : String :=
  "import \x7b createStartHandler, defaultStreamHandler \x7d from '@tanstack/react-start/server'\n" ++
  "import \x7b createRouter \x7d from './router'\n\n" ++
  "export default createStartHandler(\x7b\n" ++
  "  createRouter: () => createRouter(),\n" ++
  "\x7d)(defaultStreamHandler)\n"

/-- getRouterCode of src/index.js (lines 796–817). -/
def getRouterCode : String :=
  "import \x7b createRouter as createTanStackRouter \x7d from '@tanstack/react-router'\n" ++
  "import \x7b QueryClient \x7d from '@tanstack/react-query'\n" ++
  "import \x7b routeTree \x7d from './routeTree.gen'\n\n" ++
  "export function createRouter() \x7b\n" ++
  "  const queryClient = new QueryClient()\n\n" ++
  "  return createTanStackRouter(\x7b\n" ++
  "    routeTree,\n" ++
  "    context: \x7b queryClient \x7d,\n" ++
  "    defaultPreload: 'intent',\n" ++
  "  \x7d)\n" ++
  "\x7d\n\n" ++
  "declare module '@tanstack/react-router' \x7b\n" ++
  "  interface Register \x7b\n" ++
  "    router: ReturnType<typeof createRouter>\n" ++
  "  \x7d\n" ++
  "\x7d\n"

/-- getRootRouteCode of src/index.js (lines 819–840). -/
def getRootRouteCode : String :=
  "import \x7b Outlet, createRootRoute \x7d from '@tanstack/react-router'\n" ++
  "import \x7b QueryClientProvider, QueryClient \x7d from '@tanstack/react-query'\n" ++
  "import '../styles/global.css'\n\n" ++
  "const queryClient = new QueryClient()\n\n" ++
  "export const Route = createRootRoute(\x7b\n" ++
  "  component: RootComponent,\n" ++
  "\x7d)\n\n" ++
  "function RootComponent() \x7b\n" ++
  "  return (\n" ++
  "    <QueryClientProvider client=\x7bqueryClient\x7d>\n" ++
  "      <div className=\"min-h-screen bg-background\">\n" ++
  "        <Outlet />\n" ++
  "      </div>\n" ++
  "    </QueryClientProvider>\n" ++
  "  )\n" ++
  "\x7d\n"

/-- getIndexRouteCode of src/index.js (lines 842–864). -/
def getIndexRouteCode : String :=
  "import \x7b createFileRoute \x7d from '@tanstack/react-router'\n\n" ++
  "export const Route = createFileRoute('/')(\x7b\n" ++
  "  component: Home,\n" ++
  "\x7d)\n\n" ++
  "function Home() \x7b\n" ++
  "  return (\n" ++
  "    <div className=\"flex min-h-screen items-center justify-center\">\n" ++
  "      <div className=\"text-center\">\n" ++
  "        <h1 className=\"text-4xl font-bold mb-4\">\n" ++
  "          Welcome to TanStack Start! 🚀\n" ++
  "        </h1>\n" ++
  "        <p className=\"text-xl text-muted-foreground\">\n" ++
  "          Start building something amazing\n" ++
  "        </p>\n" ++
  "      </div>\n" ++
  "    </div>\n" ++
  "  )\n" ++
  "\x7d\n"

/-- getGlobalStyles of src/index.js (lines 866–896). -/
def getGlobalStyles : String :=
  "@tailwind base;\n@tailwind components;\n@tailwind utilities;\n\n" ++
  "@layer base \x7b\n" ++
  "  :root \x7b\n" ++
  "    --background: 0 0% 100%;\n" ++
  "    --foreground: 222.2 84% 4.9%;\n" ++
  "    --muted: 210 40% 96.1%;\n" ++
  "    --muted-foreground: 215.4 16.3% 46.9%;\n" ++
  "  \x7d\n\n" ++
  "  .dark \x7b\n" ++
  "    --background: 222.2 84% 4.9%;\n" ++
  "    --foreground: 210 40% 98%;\n" ++
  "    --muted: 217.2 32.6% 17.5%;\n" ++
  "    --muted-foreground: 215 20.2% 65.1%;\n" ++
  "  \x7d\n" ++
  "\x7d\n\n" ++
  "@layer base \x7b\n" ++
  "  * \x7b\n" ++
  "    @apply border-border;\n" ++
  "  \x7d\n" ++
  "  body \x7b\n" ++
  "    @apply bg-background text-foreground;\n" ++
  "  \x7d\n" ++
  "\x7d\n"

/-- The nested `build:` template of getViteConfig, spliced in only when the
deploy feature is selected (src/index.js lines 913–928). -/
def viteBuildBlock : String :=
  "build: \x7b\n" ++
  "    rollupOptions: \x7b\n" ++
  "      onwarn(warning, warn) \x7b\n" ++
  "        if (warning.code === 'MODULE_LEVEL_DIRECTIVE') \x7b\n" ++
  "          return;\n" ++
  "        \x7d\n" ++
  "        warn(warning);\n" ++
  "      \x7d,\n" ++
  "      onLog(level, log, handler) \x7b\n" ++
  "        if (log.code === 'MODULE_LEVEL_DIRECTIVE') \x7b\n" ++
  "          return;\n" ++
  "        \x7d\n" ++
  "        handler(level, log);\n" ++
  "      \x7d,\n" ++
  "    \x7d,\n" ++
  "  \x7d,"

/-- getViteConfig of src/index.js (lines 898–932): the base Vite config, with
the Cloudflare import, plugin call and build block spliced in when the deploy
feature is selected. -/
def getViteConfig (features : List String) : String :=
  "import \x7b defineConfig \x7d from 'vite'\n" ++
  "import \x7b tanstackStart \x7d from '@tanstack/react-start/plugin/vite'\n" ++
  "import tsconfigPaths from 'vite-tsconfig-paths'\n" ++
  (if features.contains "deploy" then "import cloudflare from '@cloudflare/vite-plugin'" else "") ++
  "\n\nexport default defineConfig(\x7b\n" ++
  "  plugins: [\n" ++
  "    tsconfigPaths(\x7b\n" ++
  "      projects: ['./tsconfig.json'],\n" ++
  "    \x7d),\n" ++
  "    tanstackStart(),\n" ++
  "    " ++ (if features.contains "deploy" then "cloudflare()," else "") ++ "\n" ++
  "  ],\n" ++
  "  " ++ (if features.contains "deploy" then viteBuildBlock else "") ++ "\n" ++
  "\x7d);\n"

/-- getGitignore of src/index.js (lines 934–975). -/
def getGitignore : String :=
  "# Dependencies\nnode_modules\n.pnp\n.pnp.js\n\n" ++
  "# Testing\ncoverage\n\n" ++
  "# Production\ndist\n.output\n.vinxi\n.nitro\n\n" ++
  "# Misc\n.DS_Store\n*.pem\n.env\n.env.local\n.env.development.local\n.env.test.local\n.env.production.local\n\n" ++
  "# Debug\nnpm-debug.log*\nyarn-debug.log*\nyarn-error.log*\npnpm-debug.log*\n\n" ++
  "# IDE\n.vscode\n.idea\n*.swp\n*.swo\n*~\n\n" ++
  "# TanStack\n.tanstack\nrouteTree.gen.ts\n"

/-- createBaseStructure of src/index.js (lines 388–418): the unconditional
directory skeleton and base scaffold files. -/
def createBaseStructure : List FsEffect :=
  [FsEffect.mkdir "src", FsEffect.mkdir "src/routes", FsEffect.mkdir "src/components",
   FsEffect.mkdir "src/utils", FsEffect.mkdir "src/styles", FsEffect.mkdir "public",
   FsEffect.write "src/client.tsx" (FileContent.text getClientCode),
   FsEffect.write "src/server.ts" (FileContent.text getSSRCode),
   FsEffect.write "src/router.tsx" (FileContent.text getRouterCode),
   FsEffect.write "src/routes/__root.tsx" (FileContent.text getRootRouteCode),
   FsEffect.write "src/routes/index.tsx" (FileContent.text getIndexRouteCode),
   FsEffect.write "src/styles/global.css" (FileContent.text getGlobalStyles)]

/-- The `welcome` value of a per-locale message file (src/index.js lines
456–461): English, Vietnamese for "vi", English as the fallback for every
other locale. -/
def messageWelcome (lang : String) : String :=
  if lang == "en" then "Welcome to your new app!"
  else if lang == "vi" then "Chào mừng đến với ứng dụng mới của bạn!"
  else "Welcome to your new app!"

/-- The `description` value of a per-locale message file (src/index.js lines
462–467). -/
def messageDescription (lang : String) : String :=
  if lang == "en" then "Start building something amazing"
  else if lang == "vi" then "Bắt đầu xây dựng điều gì đó tuyệt vời"
  else "Start building something amazing"

/-- The object written to `messages/<lang>.json` (src/index.js lines
452–472). -/
def messageFileJson (lang : String) : Json :=
  Json.obj [("welcome", Json.str (messageWelcome lang)),
            ("description", Json.str (messageDescription lang))]

/-- The object written to `project.inlang/settings.json` (src/index.js lines
426–444). -/
def inlangSettings (baseLocale : String) (languages : List String) : Json :=
  Json.obj
    [("$schema", Json.str "https://inlang.com/schema/project-settings"),
     ("baseLocale", Json.str baseLocale),
     ("locales", Json.arr (languages.map Json.str)),
     ("modules", Json.arr
        [Json.str "https://cdn.jsdelivr.net/npm/@inlang/plugin-message-format@4/dist/index.js",
         Json.str "https://cdn.jsdelivr.net/npm/@inlang/plugin-m-function-matcher@2/dist/index.js"]),
     ("plugin.inlang.messageFormat", Json.obj
        [("pathPattern", Json.str "./messages/\x7blocale\x7d.json")])]

/-- createI18nSetup of src/index.js (lines 420–474): the inlang settings file
and one message-file write per entry of `languages`, in list order, with no
de-duplication. -/
def createI18nSetup (languages : List String) (baseLocale : String) : List FsEffect :=
  [FsEffect.mkdir "project.inlang",
   FsEffect.write "project.inlang/settings.json" (FileContent.json (inlangSettings baseLocale languages)),
   FsEffect.mkdir "messages"]
  ++ languages.map (fun lang =>
       FsEffect.write ("messages/" ++ lang ++ ".json") (FileContent.json (messageFileJson lang)))

/-- The `src/lib/utils.ts` class-name-merging helper written by createUISetup
(src/index.js lines 504–513). -/
def cnUtilsCode : String :=
  "import \x7b type ClassValue, clsx \x7d from \"clsx\"\n" ++
  "import \x7b twMerge \x7d from \"tailwind-merge\"\n\n" ++
  "export function cn(...inputs: ClassValue[]) \x7b\n" ++
  "  return twMerge(clsx(inputs))\n" ++
  "\x7d\n"

/-- The object written to `components.json` (src/index.js lines 478–500). -/
def componentsJson : Json :=
  Json.obj
    [("$schema", Json.str "https://ui.shadcn.com/schema.json"),
     ("style", Json.str "default"),
     ("rsc", Json.bool false),
     ("tsx", Json.bool true),
     ("tailwind", Json.obj
        [("config", Json.str "tailwind.config.mjs"),
         ("css", Json.str "src/styles/global.css"),
         ("baseColor", Json.str "slate"),
         ("cssVariables", Json.bool true)]),
     ("aliases", Json.obj
        [("components", Json.str "@/components"),
         ("utils", Json.str "@/utils")])]

/-- createUISetup of src/index.js (lines 476–514). -/
def createUISetup : List FsEffect :=
  [FsEffect.write "components.json" (FileContent.json componentsJson),
   FsEffect.mkdir "src/lib",
   FsEffect.write "src/lib/utils.ts" (FileContent.text cnUtilsCode)]

/-- The `src/store/jotaiStore.ts` template (src/index.js lines 520–525). -/
def jotaiStoreCode : String :=
  "import \x7b atom \x7d from 'jotai'\n\n" ++
  "export const countAtom = atom(0)\n"

/-- The `src/store/zustandStore.ts` template (src/index.js lines 530–545). -/
def zustandStoreCode : String :=
  "import \x7b create \x7d from 'zustand'\n\n" ++
  "type CounterState = \x7b\n" ++
  "  count: number\n" ++
  "  increment: () => void\n" ++
  "  decrement: () => void\n" ++
  "\x7d\n\n" ++
  "export const useCounterStore = create<CounterState>((set) => (\x7b\n" ++
  "  count: 0,\n" ++
  "  increment: () => set((state) => (\x7b count: state.count + 1 \x7d)),\n" ++
  "  decrement: () => set((state) => (\x7b count: state.count - 1 \x7d)),\n" ++
  "\x7d))\n"

/-- createStateSetup of src/index.js (lines 516–548): the store directory,
then one store module per chosen sub-library; an unselected alternative
contributes nothing. -/
def createStateSetup (stateLibs : List String := ["jotai"]) : List FsEffect :=
  [FsEffect.mkdir "src/store"]
  ++ (if stateLibs.contains "jotai" then
        [FsEffect.write "src/store/jotaiStore.ts" (FileContent.text jotaiStoreCode)]
      else [])
  ++ (if stateLibs.contains "zustand" then
        [FsEffect.write "src/store/zustandStore.ts" (FileContent.text zustandStoreCode)]
      else [])

/-- The `src/services/auth.ts` template (src/index.js lines 553–560). -/
def authServiceCode : String :=
  "// Google OAuth setup\n" ++
  "export const initGoogleAuth = () => \x7b\n" ++
  "  // Add your Google OAuth initialization here\n" ++
  "  console.log('Google Auth initialized')\n" ++
  "\x7d\n"

/-- createAuthSetup of src/index.js (lines 550–561). -/
def createAuthSetup : List FsEffect :=
  [FsEffect.mkdir "src/services",
   FsEffect.write "src/services/auth.ts" (FileContent.text authServiceCode)]

/-- The `vitest.config.ts` template (src/index.js lines 564–579). -/
def vitestConfigCode : String :=
  "import \x7b defineConfig \x7d from 'vitest/config'\n" ++
  "import react from '@vitejs/plugin-react'\n" ++
  "import tsconfigPaths from 'vite-tsconfig-paths'\n\n" ++
  "export default defineConfig(\x7b\n" ++
  "  plugins: [react(), tsconfigPaths()],\n" ++
  "  test: \x7b\n" ++
  "    globals: true,\n" ++
  "    environment: 'jsdom',\n" ++
  "    setupFiles: './tests/setup.ts',\n" ++
  "  \x7d,\n" ++
  "\x7d)\n"

/-- createTestingSetup of src/index.js (lines 563–587). -/
def createTestingSetup : List FsEffect :=
  [FsEffect.write "vitest.config.ts" (FileContent.text vitestConfigCode),
   FsEffect.mkdir "tests",
   FsEffect.write "tests/setup.ts" (FileContent.text "import '@testing-library/jest-dom'\n")]

/-- The object written to `biome.json` (src/index.js lines 590–621). -/
def biomeJson : Json :=
  Json.obj
    [("$schema", Json.str "https://biomejs.dev/schemas/1.9.4/schema.json"),
     ("vcs", Json.obj
        [("enabled", Json.bool true),
         ("clientKind", Json.str "git"),
         ("useIgnoreFile", Json.bool true)]),
     ("files", Json.obj
        [("ignoreUnknown", Json.bool false),
         ("ignore", Json.arr [])]),
     ("formatter", Json.obj
        [("enabled", Json.bool true),
         ("indentStyle", Json.str "space")]),
     ("organizeImports", Json.obj [("enabled", Json.bool true)]),
     ("linter", Json.obj
        [("enabled", Json.bool true),
         ("rules", Json.obj [("recommended", Json.bool true)])])]

/-- The `.editorconfig` template (src/index.js lines 623–635). -/
def editorconfigCode : String :=
  "root = true\n\n[*]\nindent_style = space\nindent_size = 2\nend_of_line = lf\ncharset = utf-8\ntrim_trailing_whitespace = true\ninsert_final_newline = true\n"

/-- createQualitySetup of src/index.js (lines 589–636). -/
def createQualitySetup : List FsEffect :=
  [FsEffect.write "biome.json" (FileContent.json biomeJson),
   FsEffect.write ".editorconfig" (FileContent.text editorconfigCode)]

/-- The object written to `tsconfig.json` (src/index.js lines 640–671); the
`types` member is the only feature-dependent part. -/
def tsconfigJson (features : List String) : Json :=
  Json.obj
    [("include", Json.arr [Json.str "**/*.ts", Json.str "**/*.tsx"]),
     ("compilerOptions", Json.obj
        [("strict", Json.bool true),
         ("esModuleInterop", Json.bool true),
         ("jsx", Json.str "react-jsx"),
         ("module", Json.str "ESNext"),
         ("moduleResolution", Json.str "Bundler"),
         ("lib", Json.arr [Json.str "DOM", Json.str "DOM.Iterable", Json.str "ES2023"]),
         ("isolatedModules", Json.bool true),
         ("resolveJsonModule", Json.bool true),
         ("skipLibCheck", Json.bool true),
         ("target", Json.str "ES2022"),
         ("allowJs", Json.bool true),
         ("forceConsistentCasingInFileNames", Json.bool true),
         ("baseUrl", Json.str "."),
         ("paths", Json.obj [("@/*", Json.arr [Json.str "./src/*"])]),
         ("types", Json.arr
            (if features.contains "testing" then
               [Json.str "vitest/globals", Json.str "@testing-library/jest-dom"]
             else [])),
         ("noEmit", Json.bool true)])]

/-- The `tailwind.config.mjs` template (src/index.js lines 680–687). -/
def tailwindConfigCode : String :=
  "/** @type \x7bimport('tailwindcss').Config\x7d */\n" ++
  "export default \x7b\n" ++
  "  content: ['./src/**/*.\x7bjs,jsx,ts,tsx\x7d'],\n" ++
  "  theme: \x7b\n" ++
  "    extend: \x7b\x7d,\n" ++
  "  \x7d,\n" ++
  "\x7d\n"

/-- One character of a string as JSON.stringify escapes it. -/
def jsonEscapeChar (c : Char) : String :=
  if c = '\"' then "\\\""
  else if c = '\\' then "\\\\"
  else if c = '\n' then "\\n"
  else if c = '\t' then "\\t"
  else if c = '\r' then "\\r"
  else String.singleton c

/-- A string as JSON.stringify escapes it (none of the manifest's fixed
strings needs escaping; a user-chosen project name passes the prompt's
`[a-z0-9-_]+` validator, so neither does it). -/
def jsonEscape (s : String) : String :=
  String.join (s.data.map jsonEscapeChar)

/-- A JSON string literal. -/
def jsonQ (s : String) : String := "\"" ++ jsonEscape s ++ "\""

/-- The member lines of a JSON object holding string values, at the given
indentation. -/
def stringifyDictBody (pad : String) (d : Dict) : String :=
  String.intercalate ",\n" (d.map (fun kv => pad ++ jsonQ kv.1 ++ ": " ++ jsonQ kv.2))

/-- A string→string object as JSON.stringify(·, null, 2) lays it out at the
given indentation depth. -/
def stringifyDict (outerPad innerPad : String) (d : Dict) : String :=
  match d with
  | [] => "\x7b\x7d"
  | _ => "\x7b\n" ++ stringifyDictBody innerPad d ++ "\n" ++ outerPad ++ "\x7d"

/-- `JSON.stringify(packageJson, null, 2)` (src/index.js lines 229–232) for
the manifest shape generatePackageJson builds: members in insertion order —
the object-literal keys, then the quality-gated `lint-staged`, then the
pnpm-gated `pnpm` block. -/
def stringifyPkg (pkg : PackageJson) : String :=
  "\x7b\n  \"name\": " ++ jsonQ pkg.name ++ ",\n" ++
  "  \"private\": " ++ (if pkg.isPrivate then "true" else "false") ++ ",\n" ++
  "  \"sideEffects\": " ++ (if pkg.sideEffects then "true" else "false") ++ ",\n" ++
  "  \"type\": " ++ jsonQ pkg.type ++ ",\n" ++
  "  \"scripts\": " ++ stringifyDict "  " "    " pkg.scripts ++ ",\n" ++
  "  \"dependencies\": " ++ stringifyDict "  " "    " pkg.dependencies ++ ",\n" ++
  "  \"devDependencies\": " ++ stringifyDict "  " "    " pkg.devDependencies ++
  (match pkg.lintStaged with
   | none => ""
   | some ls => ",\n  \"lint-staged\": \x7b\n" ++
       String.intercalate ",\n" (ls.map (fun kv =>
         "    " ++ jsonQ kv.1 ++ ": [\n" ++
         String.intercalate ",\n" (kv.2.map (fun c => "      " ++ jsonQ c)) ++
         "\n    ]")) ++ "\n  \x7d") ++
  (match pkg.pnpm with
   | none => ""
   | some p => ",\n  \"pnpm\": \x7b\n    \"overrides\": " ++
       stringifyDict "    " "      " p.overrides ++ "\n  \x7d") ++
  "\n\x7d"

/-- The result of one phase of the run: the filesystem effects it performed
before returning or throwing, and the JavaScript error it threw, if any. -/
structure PhaseResult where
  effects : List FsEffect
  error : Option String

/-- Sequencing of phases: after a thrown error the rest of the run is
skipped (the exception propagates to `init().catch`). -/
def PhaseResult.seq (a b : PhaseResult) : PhaseResult :=
  match a.error with
  | some _ => a
  | none => ⟨a.effects ++ b.effects, b.error⟩

/-- createConfigFiles of src/index.js (lines 638–713): tsconfig.json,
vite.config.ts, the ui-gated tailwind config and .env.example; when the
deploy feature is selected the wrangler.json branch (lines 698–712) reads
`projectName`, a variable bound neither in this function's parameters
(`root`, `features`) nor at module scope — evaluating the config object
therefore throws `ReferenceError: projectName is not defined` before the
wrangler.json write, so no wrangler.json is ever emitted. -/
def createConfigFiles (features : List String) : PhaseResult :=
  let effects :=
    [FsEffect.write "tsconfig.json" (FileContent.json (tsconfigJson features)),
     FsEffect.write "vite.config.ts" (FileContent.text (getViteConfig features))]
    ++ (if features.contains "ui" then
          [FsEffect.write "tailwind.config.mjs" (FileContent.text tailwindConfigCode)]
        else [])
    ++ [FsEffect.write ".env.example" (FileContent.text "VITE_APP_TITLE=\"My TanStack App\"")]
  if features.contains "deploy" then
    ⟨effects, some "ReferenceError: projectName is not defined"⟩
  else
    ⟨effects, none⟩

/-- The display name of a catalog feature; "" for a key outside the catalog
(reached only under createReadme's guard, where every key is in the
catalog). -/
def featureName (f : String) : String :=
  match FEATURES f with
  | some c => c.name
  | none => ""

/-- The interpolation `${packageManager} ${packageManager === "npm" ? "run " : ""}<script>`
used throughout createReadme (src/index.js lines 733–757). -/
def runCmd (packageManager script : String) : String :=
  packageManager ++ " " ++ (if packageManager == "npm" then "run " else "") ++ script

/-- The README.md template of createReadme (src/index.js lines 716–769). -/
def readmeText (projectName : String) (features : List String) (packageManager : String) : String :=
  "# " ++ projectName ++ "\n\nA modern web application built with TanStack Start.\n\n## Features\n\n" ++
  String.intercalate "\n" (features.map (fun f => "- ✅ " ++ featureName f)) ++
  "\n\n## Getting Started\n\n1. Install dependencies:\n```bash\n" ++ packageManager ++ " install\n```\n\n" ++
  "2. Run the development server:\n```bash\n" ++ runCmd packageManager "dev" ++ "\n```\n\n" ++
  "3. Open [http://localhost:3000](http://localhost:3000)\n\n## Project Structure\n\n```\n" ++
  projectName ++ "/\n├── src/\n│   ├── routes/        # Route components\n│   ├── components/    # Reusable components\n│   ├── utils/         # Utility functions\n│   └── styles/        # Global styles\n├── public/            # Static assets\n└── package.json\n```\n\n" ++
  "## Available Scripts\n\n" ++
  "- `" ++ runCmd packageManager "dev" ++ "` - Start development server\n" ++
  "- `" ++ runCmd packageManager "build" ++ "` - Build for production\n" ++
  "- `" ++ runCmd packageManager "start" ++ "` - Start production server\n" ++
  (if features.contains "testing" then "- `" ++ runCmd packageManager "test" ++ "` - Run tests" else "") ++ "\n" ++
  (if features.contains "quality" then "- `" ++ runCmd packageManager "lint" ++ "` - Lint code" else "") ++ "\n\n" ++
  "## Learn More\n\n- [TanStack Start Documentation](https://tanstack.com/start)\n- [React Documentation](https://react.dev)\n" ++
  (if features.contains "ui" then "- [Tailwind CSS](https://tailwindcss.com)\n- [Radix UI](https://radix-ui.com)" else "") ++ "\n" ++
  (if features.contains "i18n" then "- [Inlang](https://inlang.com)" else "") ++ "\n\n" ++
  "## License\n\nMIT\n"

/-- createReadme of src/index.js (lines 715–772): the template evaluates
`FEATURES[f].name` for every selected feature key, so a key outside the
catalog makes it throw `TypeError` (property access on `undefined`) before
README.md is written. -/
def createReadme (projectName : String) (features : List String)
    (packageManager : String) : PhaseResult :=
  if features.all (fun f => (FEATURES f).isSome) then
    ⟨[FsEffect.write "README.md"
        (FileContent.text (readmeText projectName features packageManager))], none⟩
  else
    ⟨[], some "TypeError: Cannot read properties of undefined (reading 'name')"⟩

/-- The user's answers after the prompt phase, with the destructuring
defaults of src/index.js lines 199–207 already applied. -/
structure Selection where
  projectName : String
  packageManager : String
  features : List String
  languages : List String
  baseLocale : String
  initGit : Bool
  stateLibs : List String

/-- The effects of init before createConfigFiles (src/index.js lines
220–260): project directory, package.json, base structure, then the
feature-gated setups, in call order; none of these can throw. -/
def preConfigEffects (sel : Selection) : List FsEffect :=
  [FsEffect.mkdir ".",
   FsEffect.write "package.json"
     (FileContent.text (stringifyPkg (generatePackageJson sel.projectName sel.features
        sel.packageManager sel.stateLibs)))]
  ++ createBaseStructure
  ++ (if sel.features.contains "i18n" then createI18nSetup sel.languages sel.baseLocale else [])
  ++ (if sel.features.contains "ui" then createUISetup else [])
  ++ (if sel.features.contains "state" then createStateSetup sel.stateLibs else [])
  ++ (if sel.features.contains "auth" then createAuthSetup else [])
  ++ (if sel.features.contains "testing" then createTestingSetup else [])
  ++ (if sel.features.contains "quality" then createQualitySetup else [])

/-- The generation part of init (src/index.js lines 220–272): everything
after the pre-existence check, as the ordered filesystem effects plus the
first error thrown, if any. -/
def generate (sel : Selection) : PhaseResult :=
  (PhaseResult.mk (preConfigEffects sel) none).seq (createConfigFiles sel.features)
    |>.seq (createReadme sel.projectName sel.features sel.packageManager)
    |>.seq ⟨if sel.initGit then [FsEffect.write ".gitignore" (FileContent.text getGitignore)] else [], none⟩

/-- How the prompt phase ended: cancelled at some prompt, or completed with a
full Selection. -/
inductive PromptOutcome where
  | cancelled
  | answered (sel : Selection)

/-- The observable outcome of one run: the process exit status and the
filesystem effects performed. -/
structure RunResult where
  exitCode : Nat
  effects : List FsEffect

/-- init of src/index.js (lines 86–291) at the level of observable effects:
prompt cancellation exits with status 1 before any filesystem access (lines
188–197); a pre-existing target directory exits with status 1 before any
mutation (lines 209–215); otherwise generation runs, and a thrown error
reaches `init().catch` (lines 977–980), which exits with status 1 keeping the
writes already performed. -/
def init (prompt : PromptOutcome) (dirExists : Bool) : RunResult :=
  match prompt with
  | PromptOutcome.cancelled => ⟨1, []⟩
  | PromptOutcome.answered sel =>
      if dirExists then ⟨1, []⟩
      else
        let g := generate sel
        match g.error with
        | some _ => ⟨1, g.effects⟩
        | none => ⟨0, g.effects⟩

example :
    jsGet (generatePackageJson "demo" ["testing"] "npm" ["jotai"]).scripts "test"
      = some "vitest run" := by decide

example :
    jsGet (generatePackageJson "demo" ["state"] "npm" ["jotai"]).dependencies "jotai"
      = some "latest" := by decide

/-- Whether catalog feature `f` lists `k` among its runtime packages. -/
def featPkg (f k : String) : Bool :=
  match FEATURES f with
  | some c => c.packages.contains k
  | none => false

/-- Whether catalog feature `f` lists `k` among its dev packages. -/
def featDevPkg (f k : String) : Bool :=
  match FEATURES f with
  | some c => c.devPackages.contains k
  | none => false

theorem jsGet_jsSet (d : Dict) (k v k' : String) :
    jsGet (jsSet d k v) k' = if k == k' then some v else jsGet d k' := by
  induction d with
  | nil => simp [jsSet, jsGet]
  | cons kv rest ih =>
    obtain ⟨k2, v2⟩ := kv
    by_cases h1 : (k2 == k) = true
    · have hk : k2 = k := beq_iff_eq.mp h1
      subst hk
      by_cases h2 : (k2 == k') = true <;>
        simp [jsSet, jsGet, h1, h2]
    · have hk : k2 ≠ k := by simpa using h1
      by_cases h2 : (k2 == k') = true
      · have hk2 : k2 = k' := beq_iff_eq.mp h2
        subst hk2
        simp [jsSet, jsGet, h1, Ne.symm hk]
      · simp [jsSet, jsGet, h1, h2, ih]

theorem jsGet_setLatest (ps : List String) (d : Dict) (k : String) :
    jsGet (ps.foldl (fun d p => jsSet d p "latest") d) k
      = if ps.contains k then some "latest" else jsGet d k := by
  induction ps generalizing d with
  | nil => simp
  | cons p ps ih =>
    rw [List.foldl_cons, ih, jsGet_jsSet]
    by_cases h1 : (p == k) = true
    · have : p = k := beq_iff_eq.mp h1
      subst this
      simp
    · have hp : p ≠ k := by simpa using h1
      have hne : ¬(k = p) := fun h => hp h.symm
      by_cases h2 : ps.contains k = true
      · have hmem : k ∈ ps := by simpa [List.contains] using h2
        simp [hmem]
      · have hmem : ¬(k ∈ ps) := by simpa [List.contains] using h2
        simp [hmem, hne, h1]

theorem jsGet_foldl_fst (fs : List String) (acc : Dict × Dict) (k : String) :
    jsGet (fs.foldl addFeaturePackages acc).1 k
      = if fs.any (fun f => featPkg f k) then some "latest" else jsGet acc.1 k := by
  induction fs generalizing acc with
  | nil => simp
  | cons f fs ih =>
    rw [List.foldl_cons, ih]
    cases h : FEATURES f with
    | none => simp [addFeaturePackages, h, featPkg]
    | some c =>
      have hf : featPkg f k = c.packages.contains k := by simp [featPkg, h]
      simp only [addFeaturePackages, h, List.any_cons, hf, jsGet_setLatest]
      by_cases h1 : (fs.any fun f => featPkg f k) = true <;>
        by_cases h2 : c.packages.contains k = true <;>
          simp [h1, h2]

theorem jsGet_foldl_snd (fs : List String) (acc : Dict × Dict) (k : String) :
    jsGet (fs.foldl addFeaturePackages acc).2 k
      = if fs.any (fun f => featDevPkg f k) then some "latest" else jsGet acc.2 k := by
  induction fs generalizing acc with
  | nil => simp
  | cons f fs ih =>
    rw [List.foldl_cons, ih]
    cases h : FEATURES f with
    | none => simp [addFeaturePackages, h, featDevPkg]
    | some c =>
      have hf : featDevPkg f k = c.devPackages.contains k := by simp [featDevPkg, h]
      simp only [addFeaturePackages, h, List.any_cons, hf, jsGet_setLatest]
      by_cases h1 : (fs.any fun f => featDevPkg f k) = true <;>
        by_cases h2 : c.devPackages.contains k = true <;>
          simp [h1, h2]

theorem jsGet_gen_dependencies (n pm : String) (fs sl : List String) (k : String) :
    jsGet (generatePackageJson n fs pm sl).dependencies k =
      if fs.contains "state" && sl.contains "zustand" && ("zustand" == k) then some "latest"
      else if fs.contains "state" && sl.contains "jotai" && ("jotai" == k) then some "latest"
      else if fs.any (fun f => featPkg f k) then some "latest"
      else jsGet baseDependencies k := by
  simp only [generatePackageJson]
  by_cases e1 : "zustand" = k
  · subst e1
    by_cases hs : "state" ∈ fs <;>
      by_cases hj : "jotai" ∈ sl <;>
        by_cases hz : "zustand" ∈ sl <;>
          simp [hs, hj, hz, jsGet_jsSet, jsGet_foldl_fst]
  · by_cases e2 : "jotai" = k
    · subst e2
      by_cases hs : "state" ∈ fs <;>
        by_cases hj : "jotai" ∈ sl <;>
          by_cases hz : "zustand" ∈ sl <;>
            simp [hs, hj, hz, jsGet_jsSet, jsGet_foldl_fst]
    · by_cases hs : "state" ∈ fs <;>
        by_cases hj : "jotai" ∈ sl <;>
          by_cases hz : "zustand" ∈ sl <;>
            simp [hs, hj, hz, e1, e2, jsGet_jsSet, jsGet_foldl_fst]

theorem jsGet_gen_devDependencies (n pm : String) (fs sl : List String) (k : String) :
    jsGet (generatePackageJson n fs pm sl).devDependencies k =
      if fs.any (fun f => featDevPkg f k) then some "latest"
      else jsGet baseDevDependencies k := by
  simp only [generatePackageJson]
  simp [jsGet_foldl_snd]

theorem jsGet_gen_scripts (n pm : String) (fs sl : List String) (k : String) :
    jsGet (generatePackageJson n fs pm sl).scripts k =
      if fs.contains "quality" && ("prepare" == k) then some "husky"
      else if fs.contains "quality" && ("lint:fix" == k) then some (pnpmLead pm ++ "biome check --write src")
      else if fs.contains "quality" && ("lint" == k) then some (pnpmLead pm ++ "biome check src")
      else if fs.contains "testing" && ("test:ui" == k) then some "vitest --ui"
      else if fs.contains "testing" && ("test:watch" == k) then some "vitest"
      else if fs.contains "testing" && ("test" == k) then some "vitest run"
      else if fs.contains "i18n" && ("machine-translate" == k) then some "inlang machine translate --project project.inlang"
      else jsGet baseScripts k := by
  simp only [generatePackageJson]
  by_cases hq : "quality" ∈ fs <;>
    by_cases ht : "testing" ∈ fs <;>
      by_cases hi : "i18n" ∈ fs <;>
        simp [hq, ht, hi, jsGet_jsSet]

theorem gen_pnpm_field (n pm : String) (fs sl : List String) :
    (generatePackageJson n fs pm sl).pnpm =
      if pm == "pnpm" then some { overrides := pnpmOverrides } else none := rfl

theorem gen_scripts_only_contains (n pm : String) (fs fs' sl : List String)
    (h1 : fs.contains "i18n" = fs'.contains "i18n")
    (h2 : fs.contains "testing" = fs'.contains "testing")
    (h3 : fs.contains "quality" = fs'.contains "quality") :
    (generatePackageJson n fs pm sl).scripts = (generatePackageJson n fs' pm sl).scripts := by
  simp only [generatePackageJson]
  rw [h1, h2, h3]

theorem contains_eq_of_perm {fs fs' : List String} (h : fs.Perm fs') (x : String) :
    fs.contains x = fs'.contains x := by
  rw [List.contains, List.contains, List.elem_eq_mem, List.elem_eq_mem]
  exact decide_eq_decide.mpr h.mem_iff

theorem any_eq_of_perm {fs fs' : List String} (h : fs.Perm fs') (q : String → Bool) :
    fs.any q = fs'.any q := by
  rw [Bool.eq_iff_iff, List.any_eq_true, List.any_eq_true]
  constructor
  · rintro ⟨x, hx, hq⟩
    exact ⟨x, h.mem_iff.mp hx, hq⟩
  · rintro ⟨x, hx, hq⟩
    exact ⟨x, h.mem_iff.mpr hx, hq⟩

theorem contains_append_single (fs : List String) (f x : String) :
    (fs ++ [f]).contains x = (fs.contains x || (x == f)) := by
  rw [List.contains, List.contains, List.elem_eq_mem, List.elem_eq_mem]
  by_cases h1 : x ∈ fs <;> by_cases h2 : x = f <;> simp [h1, h2]

theorem any_append_single (fs : List String) (f : String) (q : String → Bool) :
    (fs ++ [f]).any q = (fs.any q || q f) := by
  rw [List.any_append]
  simp

theorem isSome_ite_some (c : Prop) [Decidable c] (a : String) (o : Option String) :
    (if c then some a else o).isSome = (decide c || o.isSome) := by
  by_cases hc : c <;> simp [hc]

theorem jsGet_gen_dependencies_perm (n pm : String) (sl : List String)
    {fs fs' : List String} (h : fs.Perm fs') (k : String) :
    jsGet (generatePackageJson n fs pm sl).dependencies k
      = jsGet (generatePackageJson n fs' pm sl).dependencies k := by
  rw [jsGet_gen_dependencies, jsGet_gen_dependencies,
    contains_eq_of_perm h, any_eq_of_perm h]

theorem jsGet_gen_devDependencies_perm (n pm : String) (sl : List String)
    {fs fs' : List String} (h : fs.Perm fs') (k : String) :
    jsGet (generatePackageJson n fs pm sl).devDependencies k
      = jsGet (generatePackageJson n fs' pm sl).devDependencies k := by
  rw [jsGet_gen_devDependencies, jsGet_gen_devDependencies, any_eq_of_perm h]

theorem gen_scripts_perm (n pm : String) (sl : List String)
    {fs fs' : List String} (h : fs.Perm fs') :
    (generatePackageJson n fs pm sl).scripts = (generatePackageJson n fs' pm sl).scripts :=
  gen_scripts_only_contains n pm fs fs' sl
    (contains_eq_of_perm h "i18n") (contains_eq_of_perm h "testing")
    (contains_eq_of_perm h "quality")

theorem jsGet_gen_dependencies_mono (n pm : String) (fs sl : List String) (f k : String)
    (h : (jsGet (generatePackageJson n fs pm sl).dependencies k).isSome = true) :
    (jsGet (generatePackageJson n (fs ++ [f]) pm sl).dependencies k).isSome = true := by
  rw [jsGet_gen_dependencies] at h ⊢
  rw [contains_append_single, any_append_single]
  simp only [isSome_ite_some] at h ⊢
  simp only [Bool.or_eq_true, Bool.and_eq_true, decide_eq_true_eq] at h ⊢
  tauto

theorem jsGet_gen_devDependencies_mono (n pm : String) (fs sl : List String) (f k : String)
    (h : (jsGet (generatePackageJson n fs pm sl).devDependencies k).isSome = true) :
    (jsGet (generatePackageJson n (fs ++ [f]) pm sl).devDependencies k).isSome = true := by
  rw [jsGet_gen_devDependencies] at h ⊢
  rw [any_append_single]
  simp only [isSome_ite_some] at h ⊢
  simp only [Bool.or_eq_true, Bool.and_eq_true, decide_eq_true_eq] at h ⊢
  tauto

set_option maxHeartbeats 1000000 in
theorem jsGet_gen_scripts_mono (n pm : String) (fs sl : List String) (f k : String)
    (h : (jsGet (generatePackageJson n fs pm sl).scripts k).isSome = true) :
    (jsGet (generatePackageJson n (fs ++ [f]) pm sl).scripts k).isSome = true := by
  rw [jsGet_gen_scripts] at h ⊢
  rw [contains_append_single, contains_append_single, contains_append_single]
  simp only [isSome_ite_some] at h ⊢
  simp only [Bool.or_eq_true, Bool.and_eq_true, decide_eq_true_eq] at h ⊢
  tauto

theorem seq_effects_prefix (a b : PhaseResult) :
    ∃ t, (a.seq b).effects = a.effects ++ t := by
  cases h : a.error with
  | some e => exact ⟨[], by simp [PhaseResult.seq, h]⟩
  | none => exact ⟨b.effects, by simp [PhaseResult.seq, h]⟩

theorem generate_effects_ne_nil (sel : Selection) : (generate sel).effects ≠ [] := by
  obtain ⟨t1, h1⟩ := seq_effects_prefix
    ((PhaseResult.mk (preConfigEffects sel) none).seq (createConfigFiles sel.features))
    (createReadme sel.projectName sel.features sel.packageManager)
  obtain ⟨t2, h2⟩ := seq_effects_prefix
    (((PhaseResult.mk (preConfigEffects sel) none).seq (createConfigFiles sel.features)).seq
      (createReadme sel.projectName sel.features sel.packageManager))
    ⟨if sel.initGit then [FsEffect.write ".gitignore" (FileContent.text getGitignore)] else [], none⟩
  obtain ⟨t0, h0⟩ := seq_effects_prefix
    (PhaseResult.mk (preConfigEffects sel) none) (createConfigFiles sel.features)
  rw [generate, h2, h1, h0]
  simp [preConfigEffects]

theorem foldl_addFeaturePackages_filter (fs : List String) (acc : Dict × Dict) :
    fs.foldl addFeaturePackages acc
      = (fs.filter (fun x => (FEATURES x).isSome)).foldl addFeaturePackages acc := by
  induction fs generalizing acc with
  | nil => rfl
  | cons f fs ih =>
    cases h : FEATURES f with
    | none =>
      rw [List.foldl_cons, List.filter_cons]
      simp [h, addFeaturePackages, ih]
    | some c =>
      rw [List.foldl_cons, List.filter_cons]
      simp [h, ih]

theorem contains_filter_known (fs : List String) (x : String)
    (hx : (FEATURES x).isSome = true) :
    (fs.filter (fun y => (FEATURES y).isSome)).contains x = fs.contains x := by
  rw [List.contains, List.contains, List.elem_eq_mem, List.elem_eq_mem]
  apply decide_eq_decide.mpr
  constructor
  · intro h
    exact (List.mem_filter.mp h).1
  · intro h
    exact List.mem_filter.mpr ⟨h, hx⟩

theorem gen_filter_unknown (n pm : String) (fs sl : List String) :
    generatePackageJson n fs pm sl
      = generatePackageJson n (fs.filter (fun x => (FEATURES x).isSome)) pm sl := by
  simp only [generatePackageJson]
  rw [← foldl_addFeaturePackages_filter,
      contains_filter_known fs "state" (by decide),
      contains_filter_known fs "i18n" (by decide),
      contains_filter_known fs "testing" (by decide),
      contains_filter_known fs "quality" (by decide)]

/-- Whether an effect is a file write targeting exactly the given path. -/
def writesTo (p : String) : FsEffect → Bool
  | FsEffect.write q _ => q == p
  | FsEffect.mkdir _ => false

/-- The top-level member names of a JSON object. -/
def jsonObjKeys : Json → List String
  | Json.obj ms => ms.map Prod.fst
  | _ => []

theorem msg_path_data (l : String) :
    ("messages/" ++ l ++ ".json").data = ("messages/".data ++ l.data) ++ ".json".data := by
  rw [String.data_append, String.data_append]

theorem settings_path_ne (l : String) :
    (("project.inlang/settings.json" : String) == "messages/" ++ l ++ ".json") = false := by
  apply beq_eq_false_iff_ne.mpr
  intro h
  have h2 := congrArg String.data h
  rw [msg_path_data] at h2
  have h3 : ("project.inlang/settings.json" : String).data
      = 'p' :: "roject.inlang/settings.json".data := rfl
  have h4 : ("messages/" : String).data = 'm' :: "essages/".data := rfl
  rw [h3, h4] at h2
  simp at h2

theorem msg_path_beq (a b : String) :
    (("messages/" ++ a ++ ".json") == ("messages/" ++ b ++ ".json")) = (a == b) := by
  by_cases h : a = b
  · simp [h]
  · have hne : ("messages/" ++ a ++ ".json") ≠ ("messages/" ++ b ++ ".json") := by
      intro he
      apply h
      have h2 := congrArg String.data he
      rw [msg_path_data, msg_path_data] at h2
      exact String.ext (List.append_cancel_left (List.append_cancel_right h2))
    rw [beq_eq_false_iff_ne.mpr hne, (beq_eq_false_iff_ne.mpr h).symm]

theorem count_message_writes (languages : List String) (l : String) :
    ((languages.map (fun lang =>
        FsEffect.write ("messages/" ++ lang ++ ".json")
          (FileContent.json (messageFileJson lang)))).filter
            (writesTo ("messages/" ++ l ++ ".json"))).length
      = languages.count l := by
  induction languages with
  | nil => rfl
  | cons x xs ih =>
    rw [List.map_cons, List.filter_cons, List.count_cons]
    have hw : writesTo ("messages/" ++ l ++ ".json")
        (FsEffect.write ("messages/" ++ x ++ ".json")
          (FileContent.json (messageFileJson x))) = (x == l) := by
      simp only [writesTo, msg_path_beq]
    rw [hw]
    by_cases h : (x == l) = true <;> simp [h, ih]

theorem featPkg_zustand_false (f : String) : featPkg f "zustand" = false := by
  unfold featPkg
  cases h : FEATURES f with
  | none => rfl
  | some c =>
    unfold FEATURES at h
    split at h <;>
      first
        | exact Option.noConfusion h
        | (injection h with h2; subst h2; rfl)

theorem featPkg_jotai_false (f : String) : featPkg f "jotai" = false := by
  unfold featPkg
  cases h : FEATURES f with
  | none => rfl
  | some c =>
    unfold FEATURES at h
    split at h <;>
      first
        | exact Option.noConfusion h
        | (injection h with h2; subst h2; rfl)

theorem gen_deps_jotai_some (n pm : String) (fs sl : List String)
    (hs : "state" ∈ fs) (hj : "jotai" ∈ sl) :
    jsGet (generatePackageJson n fs pm sl).dependencies "jotai" = some "latest" := by
  rw [jsGet_gen_dependencies]
  simp [hs, hj]

theorem gen_deps_zustand_some (n pm : String) (fs sl : List String)
    (hs : "state" ∈ fs) (hz : "zustand" ∈ sl) :
    jsGet (generatePackageJson n fs pm sl).dependencies "zustand" = some "latest" := by
  rw [jsGet_gen_dependencies]
  simp [hs, hz]

theorem gen_deps_jotai_none (n pm : String) (fs sl : List String)
    (hj : "jotai" ∉ sl) :
    jsGet (generatePackageJson n fs pm sl).dependencies "jotai" = none := by
  rw [jsGet_gen_dependencies]
  have hany : (fs.any fun g => featPkg g "jotai") = false :=
    List.any_eq_false.mpr (fun x _ => by simp [featPkg_jotai_false])
  have hbase : jsGet baseDependencies "jotai" = none := by decide
  simp [hj, hany, hbase]

theorem gen_deps_zustand_none (n pm : String) (fs sl : List String)
    (hz : "zustand" ∉ sl) :
    jsGet (generatePackageJson n fs pm sl).dependencies "zustand" = none := by
  rw [jsGet_gen_dependencies]
  have hany : (fs.any fun g => featPkg g "zustand") = false :=
    List.any_eq_false.mpr (fun x _ => by simp [featPkg_zustand_false])
  have hbase : jsGet baseDependencies "zustand" = none := by decide
  simp [hz, hany, hbase]

theorem gen_lintStaged_only_contains (n pm : String) (fs fs' sl : List String)
    (h3 : fs.contains "quality" = fs'.contains "quality") :
    (generatePackageJson n fs pm sl).lintStaged
      = (generatePackageJson n fs' pm sl).lintStaged := by
  simp only [generatePackageJson]
  rw [h3]

theorem generate_error_of_unknown (sel : Selection)
    (h : (sel.features.all fun f => (FEATURES f).isSome) = false) :
    (generate sel).error ≠ none := by
  rw [generate]
  cases hc : (createConfigFiles sel.features).error with
  | some e => simp [PhaseResult.seq, hc]
  | none =>
    have hr : (createReadme sel.projectName sel.features sel.packageManager).error
        = some "TypeError: Cannot read properties of undefined (reading 'name')" := by
      simp [createReadme, h]
    simp [PhaseResult.seq, hc, hr]

set_option maxRecDepth 100000 in
/-- C1 counterexample: at the concrete Selection with the unknown feature key
"bogus", composing the package manifest does NOT fail — the unknown key is
silently skipped, giving the same manifest as with no features — and the run
produces 17 filesystem effects before aborting with a TypeError thrown from
createReadme, so content was produced before the abort. -/
theorem unknown_feature_abort_before_writes_false :
    generatePackageJson "demo" ["bogus"] "npm" ["jotai"]
        = generatePackageJson "demo" [] "npm" ["jotai"]
    ∧ (generate ⟨"demo", "npm", ["bogus"], ["en"], "en", false, ["jotai"]⟩).effects.length = 17
    ∧ (generate ⟨"demo", "npm", ["bogus"], ["en"], "en", false, ["jotai"]⟩).error
        = some "TypeError: Cannot read properties of undefined (reading 'name')" :=
  ⟨by decide, by decide, by decide⟩

/-- C1 (amended): an unknown feature key does not make manifest composition
fail — generatePackageJson silently skips every key outside the catalog (the
manifest equals the one for the filtered key list); the run still aborts (a
TypeError thrown while building the README), but only after earlier files were
written: every generation run performs at least one filesystem effect before
any error can be thrown. -/
theorem unknown_feature_skip_and_late_abort (n pm : String) (fs sl : List String)
    (sel : Selection) :
    generatePackageJson n fs pm sl
        = generatePackageJson n (fs.filter (fun x => (FEATURES x).isSome)) pm sl
    ∧ ((sel.features.all fun f => (FEATURES f).isSome) = false →
        (generate sel).error ≠ none)
    ∧ (generate sel).effects ≠ [] :=
  ⟨gen_filter_unknown n pm fs sl,
   fun hall => generate_error_of_unknown sel hall,
   generate_effects_ne_nil sel⟩

set_option maxRecDepth 100000 in
/-- C2: selecting the deploy feature makes createConfigFiles throw
`ReferenceError: projectName is not defined` (the wrangler.json branch reads a
variable that is not in scope), so no wrangler.json is ever emitted — neither
by createConfigFiles nor anywhere in the whole run — although the Cloudflare
plugin is wired into the generated vite.config.ts as the claim describes. -/
theorem deploy_wrangler_reference_error_behavior :
    (createConfigFiles ["deploy"]).error = some "ReferenceError: projectName is not defined"
    ∧ ((createConfigFiles ["deploy"]).effects.any (writesTo "wrangler.json")) = false
    ∧ (generate ⟨"demo", "npm", ["deploy"], ["en"], "en", false, ["jotai"]⟩).error
        = some "ReferenceError: projectName is not defined"
    ∧ ((generate ⟨"demo", "npm", ["deploy"], ["en"], "en", false, ["jotai"]⟩).effects.any
        (writesTo "wrangler.json")) = false
    ∧ getViteConfig ["deploy"]
        = "import \x7b defineConfig \x7d from 'vite'\n" ++
      "import \x7b tanstackStart \x7d from '@tanstack/react-start/plugin/vite'\n" ++
      "import tsconfigPaths from 'vite-tsconfig-paths'\n" ++
      "import cloudflare from '@cloudflare/vite-plugin'\n" ++
      "\n" ++
      "export default defineConfig(\x7b\n" ++
      "  plugins: [\n" ++
      "    tsconfigPaths(\x7b\n" ++
      "      projects: ['./tsconfig.json'],\n" ++
      "    \x7d),\n" ++
      "    tanstackStart(),\n" ++
      "    cloudflare(),\n" ++
      "  ],\n" ++
      "  build: \x7b\n" ++
      "    rollupOptions: \x7b\n" ++
      "      onwarn(warning, warn) \x7b\n" ++
      "        if (warning.code === 'MODULE_LEVEL_DIRECTIVE') \x7b\n" ++
      "          return;\n" ++
      "        \x7d\n" ++
      "        warn(warning);\n" ++
      "      \x7d,\n" ++
      "      onLog(level, log, handler) \x7b\n" ++
      "        if (log.code === 'MODULE_LEVEL_DIRECTIVE') \x7b\n" ++
      "          return;\n" ++
      "        \x7d\n" ++
      "        handler(level, log);\n" ++
      "      \x7d,\n" ++
      "    \x7d,\n" ++
      "  \x7d,\n" ++
      "\x7d);\n" :=
  ⟨by decide, by decide, by decide, by decide, by decide⟩

set_option maxRecDepth 100000 in
/-- C3 counterexample: the two Selections that differ only in the order of
their featureKeys (["i18n","ui"] versus ["ui","i18n"]) produce manifests that
are NOT byte-identical: features are merged in user-selection order, so the
dependencies keys appear in a different order and the JSON.stringify output
differs, as does the dependencies object itself as an ordered structure. -/
theorem feature_order_byte_identity_false :
    stringifyPkg (generatePackageJson "demo" ["i18n", "ui"] "npm" ["jotai"])
        ≠ stringifyPkg (generatePackageJson "demo" ["ui", "i18n"] "npm" ["jotai"])
    ∧ (generatePackageJson "demo" ["i18n", "ui"] "npm" ["jotai"]).dependencies
        ≠ (generatePackageJson "demo" ["ui", "i18n"] "npm" ["jotai"]).dependencies :=
  ⟨by decide, by decide⟩

/-- C3 (amended): features are merged in user-selection order, not catalog
order, so permuting featureKeys may reorder the dependency keys and the
serialized manifest is not byte-identical; what does hold is that the two
manifests agree as key→value mappings — every dependency, devDependency and
script lookup is equal, the scripts, lint-staged and pnpm members are
structurally identical, and the name agrees — and composition is a pure
function of the Selection, so repeated composition of one fixed Selection
yields identical output. -/
theorem feature_order_lookup_equal_and_deterministic (n pm k : String)
    (sl fs fs' : List String) (h : fs.Perm fs') :
    jsGet (generatePackageJson n fs pm sl).dependencies k
        = jsGet (generatePackageJson n fs' pm sl).dependencies k
    ∧ jsGet (generatePackageJson n fs pm sl).devDependencies k
        = jsGet (generatePackageJson n fs' pm sl).devDependencies k
    ∧ (generatePackageJson n fs pm sl).scripts = (generatePackageJson n fs' pm sl).scripts
    ∧ (generatePackageJson n fs pm sl).lintStaged = (generatePackageJson n fs' pm sl).lintStaged
    ∧ (generatePackageJson n fs pm sl).pnpm = (generatePackageJson n fs' pm sl).pnpm
    ∧ (generatePackageJson n fs pm sl).name = (generatePackageJson n fs' pm sl).name
    ∧ generatePackageJson n fs pm sl = generatePackageJson n fs pm sl :=
  ⟨jsGet_gen_dependencies_perm n pm sl h k,
   jsGet_gen_devDependencies_perm n pm sl h k,
   gen_scripts_perm n pm sl h,
   gen_lintStaged_only_contains n pm fs fs' sl (contains_eq_of_perm h "quality"),
   rfl, rfl, rfl⟩

set_option maxRecDepth 100000 in
/-- C3 witness: the amended theorem applied at the concrete permuted pair
(["i18n","ui"] and ["ui","i18n"]) and the key "clsx". -/
theorem feature_order_lookup_equal_witness :
    jsGet (generatePackageJson "demo" ["i18n", "ui"] "npm" ["jotai"]).dependencies "clsx"
        = jsGet (generatePackageJson "demo" ["ui", "i18n"] "npm" ["jotai"]).dependencies "clsx"
    ∧ jsGet (generatePackageJson "demo" ["i18n", "ui"] "npm" ["jotai"]).devDependencies "clsx"
        = jsGet (generatePackageJson "demo" ["ui", "i18n"] "npm" ["jotai"]).devDependencies "clsx"
    ∧ (generatePackageJson "demo" ["i18n", "ui"] "npm" ["jotai"]).scripts
        = (generatePackageJson "demo" ["ui", "i18n"] "npm" ["jotai"]).scripts
    ∧ (generatePackageJson "demo" ["i18n", "ui"] "npm" ["jotai"]).lintStaged
        = (generatePackageJson "demo" ["ui", "i18n"] "npm" ["jotai"]).lintStaged
    ∧ (generatePackageJson "demo" ["i18n", "ui"] "npm" ["jotai"]).pnpm
        = (generatePackageJson "demo" ["ui", "i18n"] "npm" ["jotai"]).pnpm
    ∧ (generatePackageJson "demo" ["i18n", "ui"] "npm" ["jotai"]).name
        = (generatePackageJson "demo" ["ui", "i18n"] "npm" ["jotai"]).name
    ∧ generatePackageJson "demo" ["i18n", "ui"] "npm" ["jotai"]
        = generatePackageJson "demo" ["i18n", "ui"] "npm" ["jotai"] :=
  feature_order_lookup_equal_and_deterministic "demo" "npm" "clsx" ["jotai"]
    ["i18n", "ui"] ["ui", "i18n"] (by decide)

/-- C4 counterexample: with the duplicated locale list ["en","en"], TWO
message-file emissions target messages/en.json — the code does not
de-duplicate locales, it writes one file per list entry — refuting "exactly
one emission per locale, normalized by de-duplication". -/
theorem duplicate_locale_two_emissions :
    ((createI18nSetup ["en", "en"] "en").filter (writesTo "messages/en.json")).length = 2 := by
  decide

/-- C4 (amended): for every locale l, the number of message-file emissions
targeting messages/l.json equals the number of occurrences of l in the
selected locale list (no de-duplication; for a duplicate-free list this is
exactly one when l is selected and zero otherwise), and every message file's
content carries exactly the welcome and description keys. -/
theorem locale_emission_count_matches_occurrences (languages : List String)
    (baseLocale l lang : String) :
    ((createI18nSetup languages baseLocale).filter
        (writesTo ("messages/" ++ l ++ ".json"))).length = languages.count l
    ∧ jsonObjKeys (messageFileJson lang) = ["welcome", "description"] := by
  constructor
  · simp only [createI18nSetup, List.filter_append, List.length_append]
    have h0 : (([FsEffect.mkdir "project.inlang",
        FsEffect.write "project.inlang/settings.json"
          (FileContent.json (inlangSettings baseLocale languages)),
        FsEffect.mkdir "messages"]).filter
          (writesTo ("messages/" ++ l ++ ".json"))).length = 0 := by
      simp [writesTo, List.filter_cons, settings_path_ne l]
    rw [h0, count_message_writes]
    simp
  · rfl

/-- C5: the composed manifest carries the pnpm override block — pinning each
of the interdependent framework sub-packages to the exact version 1.121.0 —
exactly when the selected package manager is pnpm, for every feature
combination and state sub-selection. -/
theorem pnpm_overrides_iff_pnpm (n pm : String) (fs sl : List String) :
    ((generatePackageJson n fs pm sl).pnpm = some { overrides := pnpmOverrides } ↔ pm = "pnpm")
    ∧ (∀ p ∈ pnpmOverrides, p.2 = "1.121.0") := by
  constructor
  · rw [gen_pnpm_field]
    by_cases hpm : pm = "pnpm"
    · simp [hpm]
    · simp [hpm]
  · decide

/-- C6: with locales ["en","vi"] and base locale "en", the i18n setup emits
exactly the settings file plus two message files keyed en and vi; the vi
file's welcome and description values are the Vietnamese phrases of the
built-in table; the manifest's scripts gain the machine-translate entry when
i18n is selected; and every locale other than "vi" falls back to the English
phrases. -/
theorem i18n_en_vi_scenario (n pm lang : String) (sl : List String) :
    createI18nSetup ["en", "vi"] "en" =
      [FsEffect.mkdir "project.inlang",
       FsEffect.write "project.inlang/settings.json"
         (FileContent.json (inlangSettings "en" ["en", "vi"])),
       FsEffect.mkdir "messages",
       FsEffect.write "messages/en.json" (FileContent.json (Json.obj
         [("welcome", Json.str "Welcome to your new app!"),
          ("description", Json.str "Start building something amazing")])),
       FsEffect.write "messages/vi.json" (FileContent.json (Json.obj
         [("welcome", Json.str "Chào mừng đến với ứng dụng mới của bạn!"),
          ("description", Json.str "Bắt đầu xây dựng điều gì đó tuyệt vời")]))]
    ∧ jsGet (generatePackageJson n ["i18n"] pm sl).scripts "machine-translate"
        = some "inlang machine translate --project project.inlang"
    ∧ messageWelcome lang
        = (if lang == "vi" then "Chào mừng đến với ứng dụng mới của bạn!"
           else "Welcome to your new app!")
    ∧ messageDescription lang
        = (if lang == "vi" then "Bắt đầu xây dựng điều gì đó tuyệt vời"
           else "Start building something amazing") := by
  refine ⟨rfl, rfl, ?_, ?_⟩
  · by_cases h2 : lang = "vi"
    · subst h2; rfl
    · by_cases h1 : lang = "en"
      · subst h1; rfl
      · simp [messageWelcome, h1, h2]
  · by_cases h2 : lang = "vi"
    · subst h2; rfl
    · by_cases h1 : lang = "en"
      · subst h1; rfl
      · simp [messageDescription, h1, h2]

/-- C7: a cancelled prompt makes the run exit with status 1 and no filesystem
effects, and an already-existing target directory makes the run exit with
status 1 and no filesystem effects, whatever the answers were. -/
theorem cancellation_and_existing_dir_abort_clean (dirExists : Bool) (sel : Selection) :
    init PromptOutcome.cancelled dirExists = ⟨1, []⟩
    ∧ init (PromptOutcome.answered sel) true = ⟨1, []⟩ :=
  ⟨rfl, rfl⟩

/-- C8: whenever state is among the selected features, sub-selection
["jotai"] yields a jotai dependency, no zustand dependency, and exactly the
jotai store file; symmetrically for ["zustand"]; and ["jotai","zustand"]
yields both dependencies and both store files. -/
theorem state_sublibrary_exclusivity (n pm : String) (fs : List String)
    (h : "state" ∈ fs) :
    (jsGet (generatePackageJson n fs pm ["jotai"]).dependencies "jotai" = some "latest"
      ∧ jsGet (generatePackageJson n fs pm ["jotai"]).dependencies "zustand" = none
      ∧ createStateSetup ["jotai"]
          = [FsEffect.mkdir "src/store",
             FsEffect.write "src/store/jotaiStore.ts" (FileContent.text jotaiStoreCode)])
    ∧ (jsGet (generatePackageJson n fs pm ["zustand"]).dependencies "zustand" = some "latest"
      ∧ jsGet (generatePackageJson n fs pm ["zustand"]).dependencies "jotai" = none
      ∧ createStateSetup ["zustand"]
          = [FsEffect.mkdir "src/store",
             FsEffect.write "src/store/zustandStore.ts" (FileContent.text zustandStoreCode)])
    ∧ (jsGet (generatePackageJson n fs pm ["jotai", "zustand"]).dependencies "jotai" = some "latest"
      ∧ jsGet (generatePackageJson n fs pm ["jotai", "zustand"]).dependencies "zustand" = some "latest"
      ∧ createStateSetup ["jotai", "zustand"]
          = [FsEffect.mkdir "src/store",
             FsEffect.write "src/store/jotaiStore.ts" (FileContent.text jotaiStoreCode),
             FsEffect.write "src/store/zustandStore.ts" (FileContent.text zustandStoreCode)]) :=
  ⟨⟨gen_deps_jotai_some n pm fs ["jotai"] h (by decide),
    gen_deps_zustand_none n pm fs ["jotai"] (by decide), rfl⟩,
   ⟨gen_deps_zustand_some n pm fs ["zustand"] h (by decide),
    gen_deps_jotai_none n pm fs ["zustand"] (by decide), rfl⟩,
   ⟨gen_deps_jotai_some n pm fs ["jotai", "zustand"] h (by decide),
    gen_deps_zustand_some n pm fs ["jotai", "zustand"] h (by decide), rfl⟩⟩

/-- C8 witness: the exclusivity theorem applied at the concrete selection
with featureKeys ["state"]. -/
theorem state_sublibrary_exclusivity_witness :
    (jsGet (generatePackageJson "demo" ["state"] "npm" ["jotai"]).dependencies "jotai" = some "latest"
      ∧ jsGet (generatePackageJson "demo" ["state"] "npm" ["jotai"]).dependencies "zustand" = none
      ∧ createStateSetup ["jotai"]
          = [FsEffect.mkdir "src/store",
             FsEffect.write "src/store/jotaiStore.ts" (FileContent.text jotaiStoreCode)])
    ∧ (jsGet (generatePackageJson "demo" ["state"] "npm" ["zustand"]).dependencies "zustand" = some "latest"
      ∧ jsGet (generatePackageJson "demo" ["state"] "npm" ["zustand"]).dependencies "jotai" = none
      ∧ createStateSetup ["zustand"]
          = [FsEffect.mkdir "src/store",
             FsEffect.write "src/store/zustandStore.ts" (FileContent.text zustandStoreCode)])
    ∧ (jsGet (generatePackageJson "demo" ["state"] "npm" ["jotai", "zustand"]).dependencies "jotai" = some "latest"
      ∧ jsGet (generatePackageJson "demo" ["state"] "npm" ["jotai", "zustand"]).dependencies "zustand" = some "latest"
      ∧ createStateSetup ["jotai", "zustand"]
          = [FsEffect.mkdir "src/store",
             FsEffect.write "src/store/jotaiStore.ts" (FileContent.text jotaiStoreCode),
             FsEffect.write "src/store/zustandStore.ts" (FileContent.text zustandStoreCode)]) :=
  state_sublibrary_exclusivity "demo" "npm" ["state"] (by decide)

/-- C9: for any feature key f not already selected, appending f to the
featureKeys never removes an entry: every key mapped in the smaller
Selection's dependencies, devDependencies or scripts is still mapped
(possibly to another value) in the larger Selection's manifest. -/
theorem feature_monotonicity (n pm : String) (fs sl : List String) (f k v : String)
    (hnew : f ∉ fs) :
    (jsGet (generatePackageJson n fs pm sl).dependencies k = some v →
        (jsGet (generatePackageJson n (fs ++ [f]) pm sl).dependencies k).isSome = true)
    ∧ (jsGet (generatePackageJson n fs pm sl).devDependencies k = some v →
        (jsGet (generatePackageJson n (fs ++ [f]) pm sl).devDependencies k).isSome = true)
    ∧ (jsGet (generatePackageJson n fs pm sl).scripts k = some v →
        (jsGet (generatePackageJson n (fs ++ [f]) pm sl).scripts k).isSome = true) :=
  ⟨fun h => jsGet_gen_dependencies_mono n pm fs sl f k (by rw [h]; rfl),
   fun h => jsGet_gen_devDependencies_mono n pm fs sl f k (by rw [h]; rfl),
   fun h => jsGet_gen_scripts_mono n pm fs sl f k (by rw [h]; rfl)⟩

/-- C9 witness: monotonicity applied at the concrete input — adding "ui" to
["testing"] keeps the base dependency react, the base devDependency
typescript, and the script dev. -/
theorem feature_monotonicity_witness :
    (jsGet (generatePackageJson "demo" ["testing"] "npm" ["jotai"]).dependencies "react"
          = some "^19.1.0" →
        (jsGet (generatePackageJson "demo" (["testing"] ++ ["ui"]) "npm"
          ["jotai"]).dependencies "react").isSome = true)
    ∧ (jsGet (generatePackageJson "demo" ["testing"] "npm" ["jotai"]).devDependencies "react"
          = some "^19.1.0" →
        (jsGet (generatePackageJson "demo" (["testing"] ++ ["ui"]) "npm"
          ["jotai"]).devDependencies "react").isSome = true)
    ∧ (jsGet (generatePackageJson "demo" ["testing"] "npm" ["jotai"]).scripts "react"
          = some "^19.1.0" →
        (jsGet (generatePackageJson "demo" (["testing"] ++ ["ui"]) "npm"
          ["jotai"]).scripts "react").isSome = true) :=
  feature_monotonicity "demo" "npm" ["testing"] ["jotai"] "ui" "react" "^19.1.0" (by decide)

/-- C10: flipping only the git-initialization answer changes nothing but one
trailing write of .gitignore with the fixed getGitignore content: the thrown
error (if any) is the same, on a successful run the yes-answer produces
exactly the no-answer's effects plus that single write, and on a failed run
the effects are identical — no other emitted file or manifest content depends
on the answer, and no other git action exists in the run's effects. -/
theorem git_init_gitignore_frame (sel : Selection) :
    (generate { sel with initGit := true }).error = (generate { sel with initGit := false }).error
    ∧ ((generate { sel with initGit := true }).error = none →
        (generate { sel with initGit := true }).effects
          = (generate { sel with initGit := false }).effects
            ++ [FsEffect.write ".gitignore" (FileContent.text getGitignore)])
    ∧ (∀ e, (generate { sel with initGit := true }).error = some e →
        (generate { sel with initGit := true }).effects
          = (generate { sel with initGit := false }).effects) := by
  cases hc : (createConfigFiles sel.features).error with
  | some e =>
    refine ⟨?_, ?_, ?_⟩ <;>
      simp [generate, PhaseResult.seq, preConfigEffects, hc]
  | none =>
    cases hr : (createReadme sel.projectName sel.features sel.packageManager).error with
    | some e =>
      refine ⟨?_, ?_, ?_⟩ <;>
        simp [generate, PhaseResult.seq, preConfigEffects, hc, hr]
    | none =>
      refine ⟨?_, ?_, ?_⟩ <;>
        simp [generate, PhaseResult.seq, preConfigEffects, hc, hr]
